import Mathlib

/-!
Verification of the soursop custodial wallet manager against its
natural-language specification.

The development shallowly embeds the TypeScript sources:

* `src/util/encrypt-decrypt.ts` — the envelope cipher (`encrypt`/`decrypt`);
* the `@solana/kit` based `WalletManager` (private-key import with format
  sniffing, `getBalance` with address pre-validation);
* the `@solana/web3.js` based `WalletManager` (mnemonic import, the
  self-referential `connection` accessor pair);
* `src/wallet/model.ts` — the typegoose record store (`createAndSave`);
* `src/wallet/telegram-wallet-handler.ts` — the session-cache handler.

Node `Buffer`s and raw key bytes are modelled as `List Nat`; strings keep
their Lean `String` type; promise rejection / thrown errors are modelled
with `Except`/`Option`; external library primitives (Node `crypto`, bip39,
bs58, WebCrypto, the ledger RPC, MongoDB) are abstracted as explicit
parameters constrained only by the contracts those libraries document.
-/

namespace Soursop

/-- Bytes of a Node `Buffer` / `Uint8Array`. -/
abbrev Bytes := List Nat

/-! ### Envelope cipher (`src/util/encrypt-decrypt.ts`) -/

/-- `SALT_LEN` from `encrypt-decrypt.ts`. -/
def SALT_LEN : Nat := 16

/-- `IV_LEN` from `encrypt-decrypt.ts`. -/
def IV_LEN : Nat := 12

/-- `AUTH_TAG_LEN` from `encrypt-decrypt.ts`. -/
def AUTH_TAG_LEN : Nat := 16

/-- `KEY_LEN` from `encrypt-decrypt.ts`. -/
def KEY_LEN : Nat := 32

/-- Model of the Node `crypto` primitives used by `encrypt-decrypt.ts`
(`crypto.scrypt` and AES-256-GCM through `createCipheriv` /
`createDecipheriv`).  These primitives live outside the repository, so they
are abstracted to an arbitrary family of functions satisfying the standard
AEAD contract:

* `scrypt password salt` is the deterministic 32-byte key derivation;
* `enc key iv pt` is the GCM keystream encryption of the plaintext bytes,
  which preserves length (`enc_length`);
* `dec key iv ct` is its inverse (`dec_enc`);
* `tagOf key iv ct` is the 16-byte GCM authentication tag
  (`tag_length`); `decipher.final()` succeeds exactly when the tag
  supplied to `setAuthTag` equals the recomputed tag. -/
structure AeadModel where
  scrypt : Bytes → Bytes → Bytes
  enc : Bytes → Bytes → Bytes → Bytes
  dec : Bytes → Bytes → Bytes → Bytes
  tagOf : Bytes → Bytes → Bytes → Bytes
  enc_length : ∀ key iv pt, (enc key iv pt).length = pt.length
  tag_length : ∀ key iv ct, (tagOf key iv ct).length = AUTH_TAG_LEN
  dec_enc : ∀ key iv pt, dec key iv (enc key iv pt) = pt

/-- `encrypt(plaintext, password)` from `encrypt-decrypt.ts`.  The fresh
`salt` (16 bytes) and `iv` (12 bytes) drawn by `crypto.randomBytes` are
explicit arguments; `plaintext` stands for the UTF-8 bytes of the input
string.  The code derives the key with scrypt, encrypts, reads the auth
tag and resolves `salt || iv || authTag || ciphertext`. -/
def encrypt (M : AeadModel) (plaintext password salt iv : Bytes) : Bytes :=
  let key := M.scrypt password salt
  let ciphertext := M.enc key iv plaintext
  let authTag := M.tagOf key iv ciphertext
  salt ++ iv ++ authTag ++ ciphertext

/-- `decrypt(encryptedBuffer, password)` from `encrypt-decrypt.ts`.  The
code slices `salt = [0,16)`, `iv = [16,28)`, `authTag = [28,44)`,
`ciphertext = [44,…)` (with no length check: `subarray` silently clips),
derives the key with scrypt, and attempts authenticated decryption;
rejection is modelled by `none`. -/
def decrypt (M : AeadModel) (encryptedBuffer password : Bytes) : Option Bytes :=
  let salt := encryptedBuffer.take SALT_LEN
  let iv := (encryptedBuffer.drop SALT_LEN).take IV_LEN
  let authTag := (encryptedBuffer.drop (SALT_LEN + IV_LEN)).take AUTH_TAG_LEN
  let ciphertext := encryptedBuffer.drop (SALT_LEN + IV_LEN + AUTH_TAG_LEN)
  let key := M.scrypt password salt
  if M.tagOf key iv ciphertext = authTag then some (M.dec key iv ciphertext)
  else none

/-- The cryptographic operations `decrypt` can perform. -/
inductive CryptoOp where
  | scryptOp
  | decipherOp
deriving DecidableEq

/-- `decrypt` instrumented with the sequence of cryptographic operations
performed.  The source slices the buffer and then unconditionally calls
`crypto.scrypt` and then constructs the decipher and attempts authenticated
decryption inside `try`; no branch skips either operation, in particular
there is no length pre-check on the buffer. -/
def decryptTrace (M : AeadModel) (encryptedBuffer password : Bytes) :
    Option Bytes × List CryptoOp :=
  let salt := encryptedBuffer.take SALT_LEN
  let iv := (encryptedBuffer.drop SALT_LEN).take IV_LEN
  let authTag := (encryptedBuffer.drop (SALT_LEN + IV_LEN)).take AUTH_TAG_LEN
  let ciphertext := encryptedBuffer.drop (SALT_LEN + IV_LEN + AUTH_TAG_LEN)
  let key := M.scrypt password salt
  let result :=
    if M.tagOf key iv ciphertext = authTag then some (M.dec key iv ciphertext)
    else none
  (result, [CryptoOp.scryptOp, CryptoOp.decipherOp])

/-- The instrumented decryption computes the same result as `decrypt`. -/
theorem decryptTrace_fst (M : AeadModel) (buf password : Bytes) :
    (decryptTrace M buf password).1 = decrypt M buf password := rfl

/-- A concrete instance of the AEAD contract (identity keystream, constant
tag), used to evaluate the cipher code on concrete inputs. -/
def testAead : AeadModel where
  scrypt := fun _ _ => List.replicate KEY_LEN 0
  enc := fun _ _ pt => pt
  dec := fun _ _ ct => ct
  tagOf := fun _ _ _ => List.replicate AUTH_TAG_LEN 0
  enc_length := fun _ _ _ => rfl
  tag_length := fun _ _ _ => by simp [AUTH_TAG_LEN]
  dec_enc := fun _ _ _ => rfl

/-- Fixed-offset slicing of a well-formed envelope recovers its four
segments (the `subarray` calls of `decrypt`, on a buffer shaped like
the output of `encrypt`). -/
theorem envelope_slices (salt iv tg ct : Bytes) (hs : salt.length = SALT_LEN)
    (hi : iv.length = IV_LEN) (ht : tg.length = AUTH_TAG_LEN) :
    (salt ++ iv ++ tg ++ ct).take SALT_LEN = salt
    ∧ ((salt ++ iv ++ tg ++ ct).drop SALT_LEN).take IV_LEN = iv
    ∧ ((salt ++ iv ++ tg ++ ct).drop (SALT_LEN + IV_LEN)).take AUTH_TAG_LEN = tg
    ∧ (salt ++ iv ++ tg ++ ct).drop (SALT_LEN + IV_LEN + AUTH_TAG_LEN) = ct := by
  refine ⟨?_, ?_, ?_, ?_⟩
  · simp only [List.append_assoc]
    exact List.take_left' hs
  · simp only [List.append_assoc]
    rw [List.drop_left' hs]
    exact List.take_left' hi
  · simp only [List.append_assoc]
    rw [← List.drop_drop, List.drop_left' hs, List.drop_left' hi]
    exact List.take_left' ht
  · simp only [List.append_assoc]
    rw [← List.drop_drop, ← List.drop_drop, List.drop_left' hs,
      List.drop_left' hi]
    exact List.drop_left' ht

/-- C1: for every plaintext, password, 16-byte salt and 12-byte iv (and
every implementation of the crypto primitives satisfying the AEAD
contract), decrypting an encryption under the same password returns
exactly the original plaintext. -/
theorem C1_decrypt_encrypt_roundtrip (M : AeadModel)
    (plaintext password salt iv : Bytes)
    (hs : salt.length = SALT_LEN) (hi : iv.length = IV_LEN) :
    decrypt M (encrypt M plaintext password salt iv) password = some plaintext := by
  have htag : (M.tagOf (M.scrypt password salt) iv
      (M.enc (M.scrypt password salt) iv plaintext)).length = AUTH_TAG_LEN :=
    M.tag_length _ _ _
  obtain ⟨e1, e2, e3, e4⟩ := envelope_slices salt iv _ _ hs hi htag
  simp only [encrypt, decrypt]
  rw [e1, e2, e3, e4, if_pos rfl, M.dec_enc]

/-- Closed witness for C1 at a concrete input. -/
theorem C1_witness :
    decrypt testAead (encrypt testAead [104, 105] [1, 2]
      (List.replicate 16 3) (List.replicate 12 4)) [1, 2] = some [104, 105] :=
  C1_decrypt_encrypt_roundtrip testAead [104, 105] [1, 2]
    (List.replicate 16 3) (List.replicate 12 4) (by decide) (by decide)

/-- C2 (amended): every buffer shorter than the 44-byte header is rejected
by `decrypt` — the sliced tag is shorter than the recomputed 16-byte tag,
so authentication necessarily fails. -/
theorem C2_short_buffer_decrypt_fails (M : AeadModel) (buf password : Bytes)
    (h : buf.length < SALT_LEN + IV_LEN + AUTH_TAG_LEN) :
    decrypt M buf password = none := by
  simp only [decrypt]
  rw [if_neg]
  intro hEq
  have h2 := M.tag_length (M.scrypt password (buf.take SALT_LEN))
    ((buf.drop SALT_LEN).take IV_LEN)
    (buf.drop (SALT_LEN + IV_LEN + AUTH_TAG_LEN))
  rw [hEq] at h2
  simp only [List.length_take, List.length_drop, SALT_LEN, IV_LEN,
    AUTH_TAG_LEN] at h2 h
  omega

/-- Closed witness for C2 (amended) at a concrete 10-byte buffer. -/
theorem C2_witness :
    decrypt testAead (List.replicate 10 0) [7] = none :=
  C2_short_buffer_decrypt_fails testAead (List.replicate 10 0) [7] (by decide)

/-- C2 counterexample: on a 10-byte buffer (shorter than 44 bytes) the
code still performs the scrypt key derivation (and then attempts the
decipher); it does not fail before the cryptographic operations, because
`decrypt` has no length pre-check. -/
theorem C2_counterexample :
    CryptoOp.scryptOp ∈ (decryptTrace testAead (List.replicate 10 0) [7]).2 := by
  decide

/-- C6: the envelope produced by `encrypt` is the concatenation
`salt(16) || iv(12) || authTag(16) || ciphertext`; its length is
`44 + |plaintext|` (the GCM ciphertext has the length of the plaintext),
at least 44 and exactly 44 for the empty plaintext; and the length is
independent of the random salt/iv, so two calls with identical inputs
produce outputs of equal length. -/
theorem C6_encrypt_envelope_shape (M : AeadModel)
    (plaintext password salt iv salt2 iv2 : Bytes)
    (hs : salt.length = SALT_LEN) (hi : iv.length = IV_LEN)
    (hs2 : salt2.length = SALT_LEN) (hi2 : iv2.length = IV_LEN) :
    encrypt M plaintext password salt iv =
      salt ++ iv
        ++ M.tagOf (M.scrypt password salt) iv
            (M.enc (M.scrypt password salt) iv plaintext)
        ++ M.enc (M.scrypt password salt) iv plaintext
    ∧ (encrypt M plaintext password salt iv).length
        = SALT_LEN + IV_LEN + AUTH_TAG_LEN + plaintext.length
    ∧ 44 ≤ (encrypt M plaintext password salt iv).length
    ∧ (plaintext = [] → (encrypt M plaintext password salt iv).length = 44)
    ∧ (encrypt M plaintext password salt iv).length
        = (encrypt M plaintext password salt2 iv2).length := by
  have hlen : ∀ s i : Bytes, s.length = SALT_LEN → i.length = IV_LEN →
      (encrypt M plaintext password s i).length
        = SALT_LEN + IV_LEN + AUTH_TAG_LEN + plaintext.length := by
    intro s i hsl hil
    simp only [encrypt, List.length_append, M.enc_length, M.tag_length, hsl, hil]
  refine ⟨rfl, hlen salt iv hs hi, ?_, ?_, ?_⟩
  · rw [hlen salt iv hs hi]
    show 44 ≤ 16 + 12 + 16 + plaintext.length
    omega
  · intro hpt
    rw [hlen salt iv hs hi, hpt]
    rfl
  · rw [hlen salt iv hs hi, hlen salt2 iv2 hs2 hi2]


/-- Closed witness for C6 at concrete inputs. -/
theorem C6_witness :
    encrypt testAead [9] [1] (List.replicate 16 0) (List.replicate 12 0) =
      List.replicate 16 0 ++ List.replicate 12 0
        ++ testAead.tagOf (testAead.scrypt [1] (List.replicate 16 0))
            (List.replicate 12 0)
            (testAead.enc (testAead.scrypt [1] (List.replicate 16 0))
              (List.replicate 12 0) [9])
        ++ testAead.enc (testAead.scrypt [1] (List.replicate 16 0))
            (List.replicate 12 0) [9]
    ∧ (encrypt testAead [9] [1] (List.replicate 16 0)
        (List.replicate 12 0)).length
        = SALT_LEN + IV_LEN + AUTH_TAG_LEN + ([9] : Bytes).length
    ∧ 44 ≤ (encrypt testAead [9] [1] (List.replicate 16 0)
        (List.replicate 12 0)).length
    ∧ (([9] : Bytes) = [] → (encrypt testAead [9] [1] (List.replicate 16 0)
        (List.replicate 12 0)).length = 44)
    ∧ (encrypt testAead [9] [1] (List.replicate 16 0)
        (List.replicate 12 0)).length
        = (encrypt testAead [9] [1] (List.replicate 16 5)
            (List.replicate 12 6)).length :=
  C6_encrypt_envelope_shape testAead [9] [1] (List.replicate 16 0)
    (List.replicate 12 0) (List.replicate 16 5) (List.replicate 12 6)
    (by decide) (by decide) (by decide) (by decide)

/-! ### `@solana/kit` based `WalletManager`

Private-key import with format sniffing (`importFromPrivateKey` /
`processKey`) and balance lookup (`getBalance` / `isValidAddress`). -/

/-- A keypair as handled by the kit-based manager; the opaque WebCrypto
`CryptoKey` handles are modelled by the raw key bytes they wrap. -/
structure KitKeypair where
  publicKey : Bytes
  privateKey : Bytes
deriving DecidableEq

/-- The kit-variant `WalletInfo`: keys plus optional mnemonic. -/
structure KitWalletInfo where
  publicKey : Bytes
  privateKey : Bytes
  mnemonic : Option String := none
deriving DecidableEq

/-- External collaborators of the kit-based `WalletManager`
(`JSON.parse`, the kit functions `createKeyPairFromPrivateKeyBytes` and
`assertIsAddress`, `bs58.decode`, and Node `Buffer.from(-, "hex")`),
abstracted as deterministic functions; `Except.error` models a thrown
exception.  `assertIsAddress` is folded into the boolean it induces
through the `try`/`catch` of `isValidAddress`; `hexDecode` is total
because Node hex parsing never throws (it stops at invalid input). -/
structure KitExt where
  jsonParse : String → Except String (List Int)
  createKeyPairFromPrivateKeyBytes : Bytes → Except String KitKeypair
  bs58decode : String → Except String Bytes
  hexDecode : String → Bytes
  assertIsAddress : String → Bool

/-- Kernel-computable model of JavaScript `String.prototype.startsWith`. -/
def strStartsWith (s pre : String) : Bool :=
  pre.toList.isPrefixOf s.toList

/-- Kernel-computable model of JavaScript `String.prototype.endsWith`. -/
def strEndsWith (s suf : String) : Bool :=
  suf.toList.isSuffixOf s.toList

/-- An error rethrown by a `catch` block as
``Error(`<message>: ${error}`)``; message and stringified cause kept
separate. -/
structure WrappedError where
  message : String
  cause : String
deriving DecidableEq

/-- The message of the error `processKey` throws for undersized keys. -/
def keyTooShortMsg : String := "Key is too short. Expected at least 32 bytes."

/-- `WalletManager.processKey` (kit variant): a 32-byte array is the raw
key; a longer array is treated as a structured export and only its
trailing 32 bytes (`buffer.slice(-32)`) are kept; a shorter array throws
the "too short" error. -/
def processKey (buffer : List Int) : Except String (List Int) :=
  if buffer.length = 32 then .ok buffer
  else if buffer.length > 32 then .ok (buffer.drop (buffer.length - 32))
  else .error keyTooShortMsg

/-- The JavaScript `ToUint8` coercion applied by `new Uint8Array(keyArray)`
to each element. -/
def toUint8 (i : Int) : Nat := (i % 256).toNat

/-- The `[...]` branch of the kit `importFromPrivateKey`: `JSON.parse`,
`processKey`, then key construction from the coerced bytes. -/
def importArrayBranch (E : KitExt) (privateKey : String) :
    Except String KitKeypair := do
  let keyArray ← E.jsonParse privateKey
  let keyArray ← processKey keyArray
  E.createKeyPairFromPrivateKeyBytes (keyArray.map toUint8)

/-- The hex branch of the kit `importFromPrivateKey`
(`Buffer.from(privateKey, "hex")`, then key construction). -/
def importHexBranch (E : KitExt) (privateKey : String) :
    Except String KitKeypair :=
  E.createKeyPairFromPrivateKeyBytes (E.hexDecode privateKey)

/-- The base58 branch of the kit `importFromPrivateKey` (`bs58.decode`,
then key construction). -/
def importBase58Branch (E : KitExt) (privateKey : String) :
    Except String KitKeypair := do
  let keyBytes ← E.bs58decode privateKey
  E.createKeyPairFromPrivateKeyBytes keyBytes

/-- The `catch` of `importFromPrivateKey`: a successful keypair becomes a
`WalletInfo` without mnemonic, any thrown error is rethrown as
`Error("Failed to import from private key: ...")`. -/
def wrapImport : Except String KitKeypair → Except WrappedError KitWalletInfo
  | .ok kp => .ok { publicKey := kp.publicKey, privateKey := kp.privateKey }
  | .error cause => .error ⟨"Failed to import from private key", cause⟩

/-- `WalletManager.importFromPrivateKey` (kit variant): sniffs the format
in priority order — bracket-delimited JSON array, then hex when the
string length is 64, else base58. -/
def importFromPrivateKey (E : KitExt) (privateKey : String) :
    Except WrappedError KitWalletInfo :=
  wrapImport
    (if strStartsWith privateKey "[" && strEndsWith privateKey "]" then
      importArrayBranch E privateKey
    else if privateKey.length = 64 then
      importHexBranch E privateKey
    else
      importBase58Branch E privateKey)

/-- `WalletManager.isValidAddress` (kit variant): `assertIsAddress`
wrapped in `try`/`catch`. -/
def isValidAddress (E : KitExt) (address : String) : Bool :=
  E.assertIsAddress address

/-- Error values that travel through the `getBalance` promise chain: the
string `cause` option (`INVALID_ADDRESS`), a `GetBalanceError` with its
optional chained cause, or some other thrown error (e.g. from the RPC). -/
inductive ErrVal where
  | tag (s : String)
  | getBalanceError (message : String) (cause : Option ErrVal)
  | other (message : String)

/-- `WalletManager.getBalance` (kit variant), with the ledger RPC as an
explicit oracle.  The first `.then` validates the address and either
performs the RPC query or throws
`GetBalanceError("Invalid address provided", { cause: "INVALID_ADDRESS" })`;
the second divides the lamports value (a non-negative `u64` bigint) by
`1_000_000_000n`; the final `.catch` rethrows any failure as
`GetBalanceError("Failed to get balance", { cause: err })`. -/
def getBalance (E : KitExt) (rpc : String → Except ErrVal Nat)
    (publicKey : String) : Except ErrVal Nat :=
  let step :=
    if isValidAddress E publicKey then rpc publicKey
    else .error (.getBalanceError "Invalid address provided"
      (some (.tag "INVALID_ADDRESS")))
  match step with
  | .ok value => .ok (value / 1000000000)
  | .error e => .error (.getBalanceError "Failed to get balance" (some e))

/-- `getBalance` instrumented with whether the RPC oracle was invoked:
`client.rpc.getBalance(pubKey).send()` is reached only in the
valid-address branch of the first `.then`. -/
def getBalanceTrace (E : KitExt) (rpc : String → Except ErrVal Nat)
    (publicKey : String) : Except ErrVal Nat × Bool :=
  if isValidAddress E publicKey then
    match rpc publicKey with
    | .ok value => (.ok (value / 1000000000), true)
    | .error e =>
      (.error (.getBalanceError "Failed to get balance" (some e)), true)
  else
    (.error (.getBalanceError "Failed to get balance"
      (some (.getBalanceError "Invalid address provided"
        (some (.tag "INVALID_ADDRESS"))))), false)

/-- The instrumented balance lookup computes the same result as
`getBalance`. -/
theorem getBalanceTrace_fst (E : KitExt) (rpc : String → Except ErrVal Nat)
    (publicKey : String) :
    (getBalanceTrace E rpc publicKey).1 = getBalance E rpc publicKey := by
  simp only [getBalanceTrace, getBalance]
  by_cases h : isValidAddress E publicKey
  · simp only [h, if_true]
    cases rpc publicKey <;> rfl
  · simp only [h, if_false, Bool.false_eq_true]

/-- Whether a `getBalance` outcome is a `GetBalanceError` whose own
`cause` option is the given string tag. -/
def isTagged (t : String) : Except ErrVal Nat → Bool
  | .error (.getBalanceError _ (some (.tag s))) => s = t
  | _ => false

/-! #### A concrete instance of the external collaborators -/

/-- A decimal digit of a JSON integer literal. -/
def charDigit? (c : Char) : Option Nat :=
  if c.isDigit then some (c.toNat - 48) else none

/-- Value of a nonempty all-digit token. -/
def digitsToNat (cs : List Char) : Option Nat :=
  if cs.isEmpty then none
  else
    cs.foldl
      (fun acc c =>
        match acc, charDigit? c with
        | some n, some d => some (n * 10 + d)
        | _, _ => none)
      (some 0)

/-- A (possibly negative) JSON integer literal. -/
def parseIntToken (cs : List Char) : Option Int :=
  match cs with
  | '-' :: rest => (digitsToNat rest).map (fun n => -(n : Int))
  | _ => (digitsToNat cs).map (fun n => (n : Int))

/-- Split a character list at commas. -/
def splitCommas : List Char → List (List Char)
  | [] => [[]]
  | c :: cs =>
    let rest := splitCommas cs
    if c = ',' then [] :: rest
    else
      match rest with
      | [] => [[c]]
      | g :: gs => (c :: g) :: gs

/-- A concrete model of `JSON.parse` restricted to arrays of integer
literals without embedded whitespace (the shapes the claims exercise);
anything else is a parse error. -/
def parseJsonIntArray (s : String) : Except String (List Int) :=
  if strStartsWith s "[" && strEndsWith s "]" then
    let inner := (s.toList.drop 1).dropLast
    if inner.isEmpty then .ok []
    else
      match (splitCommas inner).mapM parseIntToken with
      | some ns => .ok ns
      | none => .error "Unexpected token in JSON"
  else .error "Unexpected token in JSON"

/-- A concrete instance of the kit collaborators, used to evaluate the
manager code on concrete inputs: the JSON parser above, an Ed25519-like
key constructor requiring exactly 32 bytes, and an address check
accepting base58-plausible lengths (32 to 44 characters). -/
def toyKit : KitExt where
  jsonParse := parseJsonIntArray
  createKeyPairFromPrivateKeyBytes := fun b =>
    if b.length = 32 then .ok ⟨b.map (fun x => (x + 1) % 256), b⟩
    else .error "invalid private key bytes"
  bs58decode := fun _ => .ok (List.replicate 32 1)
  hexDecode := fun _ => List.replicate 32 2
  assertIsAddress := fun s => decide (32 ≤ s.length ∧ s.length ≤ 44)

/-- C3: the kit `importFromPrivateKey` sniffs formats in priority order —
a bracket-delimited string goes to the JSON-array branch (even when its
length is 64), a non-bracketed string of length 64 to the hex branch, and
any other string to the base58 branch; `processKey` truncates an
over-long array to its trailing 32 bytes and rejects an undersized array
with the "too short" error; in particular `importFromPrivateKey "[1,2,3]"`
fails with the "too short" cause (for any parser that reads `[1,2,3]` as
the array `[1, 2, 3]`). -/
theorem C3_importFromPrivateKey_sniffing (E : KitExt) (s : String)
    (arr : List Int) :
    ((strStartsWith s "[" && strEndsWith s "]") = true →
      importFromPrivateKey E s = wrapImport (importArrayBranch E s))
    ∧ ((strStartsWith s "[" && strEndsWith s "]") = false → s.length = 64 →
      importFromPrivateKey E s = wrapImport (importHexBranch E s))
    ∧ ((strStartsWith s "[" && strEndsWith s "]") = false → s.length ≠ 64 →
      importFromPrivateKey E s = wrapImport (importBase58Branch E s))
    ∧ (32 < arr.length →
      processKey arr = .ok (arr.drop (arr.length - 32)))
    ∧ (arr.length < 32 → processKey arr = .error keyTooShortMsg)
    ∧ (E.jsonParse "[1,2,3]" = .ok [1, 2, 3] →
      importFromPrivateKey E "[1,2,3]" =
        .error ⟨"Failed to import from private key", keyTooShortMsg⟩) := by
  refine ⟨?_, ?_, ?_, ?_, ?_, ?_⟩
  · intro h
    unfold importFromPrivateKey
    rw [h, if_pos rfl]
  · intro h h64
    unfold importFromPrivateKey
    rw [h, if_neg (by decide), if_pos h64]
  · intro h h64
    unfold importFromPrivateKey
    rw [h, if_neg (by decide), if_neg h64]
  · intro h
    unfold processKey
    rw [if_neg (by omega), if_pos (by omega)]
  · intro h
    unfold processKey
    rw [if_neg (by omega), if_neg (by omega)]
  · intro hjson
    have hb : (strStartsWith "[1,2,3]" "[" && strEndsWith "[1,2,3]" "]")
        = true := by decide
    have h1 : importFromPrivateKey E "[1,2,3]"
        = wrapImport (importArrayBranch E "[1,2,3]") := by
      unfold importFromPrivateKey
      rw [hb, if_pos rfl]
    rw [h1]
    unfold importArrayBranch
    rw [hjson]
    rfl

/-- Closed witness for C3 at the concrete parser instance and inputs. -/
theorem C3_witness :
    importFromPrivateKey toyKit "[1,2,3]" =
      .error ⟨"Failed to import from private key", keyTooShortMsg⟩ :=
  (C3_importFromPrivateKey_sniffing toyKit "[1,2,3]" []).2.2.2.2.2 rfl

/-- C8: on a valid address whose ledger balance is `v` lamports, the kit
`getBalance` returns the truncating integer quotient `v / 1_000_000_000`;
hence any balance strictly below one SOL is reported as exactly `0`. -/
theorem C8_getBalance_truncating_division (E : KitExt)
    (rpc : String → Except ErrVal Nat) (a : String) (v : Nat)
    (hv : isValidAddress E a = true) (hr : rpc a = .ok v) :
    getBalance E rpc a = .ok (v / 1000000000)
    ∧ (v < 1000000000 → getBalance E rpc a = .ok 0) := by
  have hmain : getBalance E rpc a = .ok (v / 1000000000) := by
    simp only [getBalance, hv, if_true, hr]
  refine ⟨hmain, fun hsmall => ?_⟩
  rw [hmain, Nat.div_eq_of_lt hsmall]

/-- Closed witness for C8: a 32-character address with a sub-SOL balance
of 999,999,999 lamports reports balance `0`. -/
theorem C8_witness :
    getBalance toyKit (fun _ => .ok 999999999)
        "11111111111111111111111111111111" = .ok (999999999 / 1000000000)
    ∧ (999999999 < 1000000000 →
      getBalance toyKit (fun _ => .ok 999999999)
        "11111111111111111111111111111111" = .ok 0) :=
  C8_getBalance_truncating_division toyKit (fun _ => .ok 999999999)
    "11111111111111111111111111111111" 999999999 (by decide) rfl

/-- C5 (amended): on an invalid address the kit `getBalance` fails
without invoking the RPC oracle, and the surfaced error is the generic
`GetBalanceError("Failed to get balance")` whose cause is the inner
`GetBalanceError("Invalid address provided")` tagged `INVALID_ADDRESS` —
the tag sits one level down the cause chain. -/
theorem C5_invalid_address_fails_without_rpc (E : KitExt)
    (rpc : String → Except ErrVal Nat) (a : String)
    (h : isValidAddress E a = false) :
    getBalanceTrace E rpc a =
      (.error (.getBalanceError "Failed to get balance"
        (some (.getBalanceError "Invalid address provided"
          (some (.tag "INVALID_ADDRESS"))))), false) := by
  simp only [getBalanceTrace, h, Bool.false_eq_true, if_false]

/-- Closed witness for C5 (amended) at a concrete invalid address. -/
theorem C5_witness :
    getBalanceTrace toyKit (fun _ => .ok 0) "invalid-address" =
      (.error (.getBalanceError "Failed to get balance"
        (some (.getBalanceError "Invalid address provided"
          (some (.tag "INVALID_ADDRESS"))))), false) :=
  C5_invalid_address_fails_without_rpc toyKit (fun _ => .ok 0)
    "invalid-address" (by decide)

/-- C5 counterexample: at the concrete invalid address
`"invalid-address"`, the error surfaced by `getBalance` is *not* itself
tagged `INVALID_ADDRESS` (its own cause is the inner error object, and
its message is the generic "Failed to get balance"), refuting the claim
that `getBalance` fails with a `BalanceError` tagged `INVALID_ADDRESS`. -/
theorem C5_counterexample :
    isValidAddress toyKit "invalid-address" = false
    ∧ isTagged "INVALID_ADDRESS"
        (getBalance toyKit (fun _ => .ok 0) "invalid-address") = false := by
  constructor
  · decide
  · decide

/-! ### `@solana/web3.js` based `WalletManager` -/

/-- A web3.js `Keypair`: 32-byte public key, 64-byte secret key. -/
structure Web3Keypair where
  publicKey : Bytes
  secretKey : Bytes
deriving DecidableEq

/-- The web3-variant `WalletInfo`: base58-encoded key strings plus the
optional mnemonic. -/
structure Web3WalletInfo where
  publicKey : String
  privateKey : String
  mnemonic : Option String := none
deriving DecidableEq

/-- External collaborators of the web3-based `WalletManager` (`bip39`,
the `derivePath` of `ed25519-hd-key`, web3.js `Keypair` and `PublicKey`,
`bs58`, `JSON.parse`, Node hex decoding), abstracted as deterministic
functions: none of these draws randomness, which is what makes the
mnemonic import deterministic.  `Except.error` models a thrown
exception. -/
structure Web3Ext where
  validateMnemonic : String → Bool
  mnemonicToSeedSync : String → Bytes
  toHex : Bytes → String
  derivePath : String → String → Bytes
  fromSeed : Bytes → Web3Keypair
  toBase58 : Bytes → String
  fromSecretKey : Bytes → Except String Web3Keypair
  bs58decode : String → Except String Bytes
  jsonParse : String → Except String (List Int)
  hexDecode : String → Bytes
  parsePublicKey : String → Except String Bytes
  toFixed4 : Rat → String

/-- The fixed hierarchical derivation path (hardened segments written
with `\x27` apostrophes). -/
def solanaDerivationPath : String := "m/44\x27/501\x27/0\x27/0\x27"

/-- `WalletManager.keypairFromMnemonic` (identical in both variants):
seed from the phrase, hex-encode, derive at the fixed path, keypair from
the derived seed.  A pure composition — no randomness enters. -/
def keypairFromMnemonic (E : Web3Ext) (mnemonic : String) : Web3Keypair :=
  E.fromSeed
    (E.derivePath solanaDerivationPath (E.toHex (E.mnemonicToSeedSync mnemonic)))

/-- `WalletManager.importFromMnemonic` (web3 variant): validates the
phrase, derives the keypair, and returns the `WalletInfo` carrying the
*original caller-supplied* phrase; failures are wrapped by the `catch`. -/
def importFromMnemonic (E : Web3Ext) (mnemonic : String) :
    Except WrappedError Web3WalletInfo :=
  if E.validateMnemonic mnemonic then
    let keypair := keypairFromMnemonic E mnemonic
    .ok { publicKey := E.toBase58 keypair.publicKey
          privateKey := E.toBase58 keypair.secretKey
          mnemonic := some mnemonic }
  else
    .error ⟨"Failed to import from mnemonic", "Invalid mnemonic phrase"⟩

/-- `WalletManager.importFromPrivateKey` (web3 variant): same sniffing
order as the kit variant but with hex at length 128 (the 64-byte full
secret key) and no `processKey` normalization. -/
def importFromPrivateKeyW3 (E : Web3Ext) (privateKey : String) :
    Except WrappedError Web3WalletInfo :=
  let r :=
    if strStartsWith privateKey "[" && strEndsWith privateKey "]" then do
      let keyArray ← E.jsonParse privateKey
      E.fromSecretKey (keyArray.map toUint8)
    else if privateKey.length = 128 then
      E.fromSecretKey (E.hexDecode privateKey)
    else do
      let keyBytes ← E.bs58decode privateKey
      E.fromSecretKey keyBytes
  match r with
  | .ok keypair =>
    .ok { publicKey := E.toBase58 keypair.publicKey
          privateKey := E.toBase58 keypair.secretKey }
  | .error cause => .error ⟨"Failed to import from private key", cause⟩

/-- `WalletManager.getBalance` (web3 variant): `new PublicKey(publicKey)`
(throws on malformed input), RPC balance, then
`balance / LAMPORTS_PER_SOL` — the JavaScript number division modelled
exactly in `ℚ`; any failure is rethrown as
`Error("Failed to get balance: ...")`. -/
def getBalanceW3 (E : Web3Ext) (rpc : Bytes → Except String Nat)
    (publicKey : String) : Except WrappedError Rat :=
  match (do
      let pubKey ← E.parsePublicKey publicKey
      rpc pubKey) with
  | .ok balance => .ok ((balance : Rat) / 1000000000)
  | .error cause => .error ⟨"Failed to get balance", cause⟩

/-- The stored state of the web3 `WalletManager`: the backing
`_connection` field (the connection handle type is abstract). -/
structure WalletManagerState (Conn : Type) where
  _connection : Conn

/-- The `connection` getter of the web3 `WalletManager`.  Its body is
`return this.connection`, and the property `connection` is the accessor
itself — not the backing `_connection` field — so evaluating the body
re-invokes the getter.  Invocation is modelled with an explicit
call-stack budget: each step consumes one frame and re-enters the getter,
and `none` models never returning normally (the stack overflow). -/
def connectionGet (Conn : Type) :
    Nat → WalletManagerState Conn → Option Conn
  | 0, _ => none
  | fuel + 1, st => connectionGet Conn fuel st

/-- The `connection` setter of the web3 `WalletManager`: its body is
`this.connection = value`, which re-invokes the setter itself, modelled
with the same call-stack budget; `none` models never completing. -/
def connectionSet (Conn : Type) :
    Nat → WalletManagerState Conn → Conn → Option (WalletManagerState Conn)
  | 0, _, _ => none
  | fuel + 1, st, value => connectionSet Conn fuel st value

/-- C9: each invocation of the `connection` getter (resp. setter)
immediately re-invokes itself, and under every finite call-stack budget
neither accessor ever returns normally. -/
theorem C9_connection_accessors_self_referential (Conn : Type) (fuel : Nat)
    (st : WalletManagerState Conn) (value : Conn) :
    connectionGet Conn (fuel + 1) st = connectionGet Conn fuel st
    ∧ connectionSet Conn (fuel + 1) st value = connectionSet Conn fuel st value
    ∧ connectionGet Conn fuel st = none
    ∧ connectionSet Conn fuel st value = none := by
  refine ⟨rfl, rfl, ?_, ?_⟩
  · induction fuel with
    | zero => rfl
    | succ n ih => exact ih
  · induction fuel with
    | zero => rfl
    | succ n ih => exact ih

/-- C4: `importFromMnemonic` is deterministic — its successful result is
the fixed function of the phrase given by `keypairFromMnemonic` (so two
calls agree on public and private key material) — and the returned
`WalletInfo` carries the original caller-supplied phrase; every valid
phrase succeeds with exactly that result. -/
theorem C4_importFromMnemonic_deterministic (E : Web3Ext) (m : String) :
    (∀ w w2, importFromMnemonic E m = .ok w → importFromMnemonic E m = .ok w2 →
      w.publicKey = w2.publicKey ∧ w.privateKey = w2.privateKey)
    ∧ (∀ w, importFromMnemonic E m = .ok w →
      w.mnemonic = some m
      ∧ w.publicKey = E.toBase58 (keypairFromMnemonic E m).publicKey
      ∧ w.privateKey = E.toBase58 (keypairFromMnemonic E m).secretKey)
    ∧ (E.validateMnemonic m = true →
      importFromMnemonic E m =
        .ok { publicKey := E.toBase58 (keypairFromMnemonic E m).publicKey
              privateKey := E.toBase58 (keypairFromMnemonic E m).secretKey
              mnemonic := some m }) := by
  have hok : E.validateMnemonic m = true →
      importFromMnemonic E m =
        .ok { publicKey := E.toBase58 (keypairFromMnemonic E m).publicKey
              privateKey := E.toBase58 (keypairFromMnemonic E m).secretKey
              mnemonic := some m } := by
    intro hv
    unfold importFromMnemonic
    rw [hv, if_pos rfl]
  have hshape : ∀ w, importFromMnemonic E m = .ok w →
      w = { publicKey := E.toBase58 (keypairFromMnemonic E m).publicKey
            privateKey := E.toBase58 (keypairFromMnemonic E m).secretKey
            mnemonic := some m } := by
    intro w hw
    by_cases hv : E.validateMnemonic m = true
    · rw [hok hv] at hw
      exact (Except.ok.injEq _ _ ▸ hw).symm
    · rw [Bool.not_eq_true] at hv
      unfold importFromMnemonic at hw
      rw [hv] at hw
      simp at hw
  refine ⟨?_, ?_, hok⟩
  · intro w w2 hw hw2
    rw [hshape w hw, hshape w2 hw2]
    exact ⟨rfl, rfl⟩
  · intro w hw
    rw [hshape w hw]
    exact ⟨rfl, rfl, rfl⟩

/-- A concrete instance of the web3 collaborators, used to evaluate the
manager on concrete inputs: a nonempty-phrase mnemonic validator and
simple deterministic stand-ins for the key-derivation chain. -/
def toyWeb3 : Web3Ext where
  validateMnemonic := fun s => !s.isEmpty
  mnemonicToSeedSync := fun s => [s.length % 256]
  toHex := fun b => String.join (b.map (fun n => Nat.repr n))
  derivePath := fun _ seed => [seed.length % 256]
  fromSeed := fun b => ⟨b, b ++ b⟩
  toBase58 := fun b => Nat.repr b.length ++ "#" ++ String.join (b.map Nat.repr)
  fromSecretKey := fun b =>
    if b.length = 64 then .ok ⟨b.take 32, b⟩ else .error "bad secret key size"
  bs58decode := fun _ => .ok (List.replicate 64 3)
  jsonParse := parseJsonIntArray
  hexDecode := fun _ => List.replicate 64 4
  parsePublicKey := fun s =>
    if 32 ≤ s.length ∧ s.length ≤ 44 then .ok (List.replicate 32 5)
    else .error "Invalid public key input"
  toFixed4 := fun _ => "0.0000"

/-- Closed witness for C4 at a concrete valid phrase. -/
theorem C4_witness :
    toyWeb3.validateMnemonic "abandon ability" = true
    ∧ importFromMnemonic toyWeb3 "abandon ability" =
        .ok { publicKey :=
                toyWeb3.toBase58 (keypairFromMnemonic toyWeb3 "abandon ability").publicKey
              privateKey :=
                toyWeb3.toBase58 (keypairFromMnemonic toyWeb3 "abandon ability").secretKey
              mnemonic := some "abandon ability" } :=
  ⟨by decide,
    (C4_importFromMnemonic_deterministic toyWeb3 "abandon ability").2.2 (by decide)⟩

/-! ### `TelegramWalletHandler` (session cache) -/

/-- The `userWallets` JavaScript `Map` of the handler, insertion-ordered
association list. -/
abbrev SessionMap := List (Nat × Web3WalletInfo)

/-- `Map.prototype.set`: replace the value at an existing key in place,
else append a new entry. -/
def mapSet (m : SessionMap) (k : Nat) (v : Web3WalletInfo) : SessionMap :=
  if m.any (fun p => p.1 = k) then
    m.map (fun p => if p.1 = k then (k, v) else p)
  else m ++ [(k, v)]

/-- `Map.prototype.get`. -/
def mapGet (m : SessionMap) (k : Nat) : Option Web3WalletInfo :=
  (m.find? (fun p => p.1 = k)).map (fun p => p.2)

/-- Rendering of a caught error by the template literal
```❌ Failed to import wallet: ${error}` ``. -/
def importFailedMsg (e : WrappedError) : String :=
  "❌ Failed to import wallet: " ++ e.message ++ ": " ++ e.cause

/-- The success message of the import handlers (address plus balance
fixed to four decimals). -/
def importSuccessMsg (E : Web3Ext) (wallet : Web3WalletInfo) (balance : Rat) :
    String :=
  "✅ Wallet imported successfully! Address: " ++ wallet.publicKey
    ++ " Balance: " ++ E.toFixed4 balance ++ " SOL"

/-- `TelegramWalletHandler.handleImportMnemonic`: inside `try`, import
from the mnemonic, `userWallets.set(userId, wallet)`, then look up the
balance for the success message; the `catch` renders any throw as the
error message (leaving the map in whatever state the `try` reached). -/
def handleImportMnemonic (E : Web3Ext) (rpc : Bytes → Except String Nat)
    (userWallets : SessionMap) (userId : Nat) (mnemonic : String) :
    String × SessionMap :=
  match importFromMnemonic E mnemonic with
  | .error e => (importFailedMsg e, userWallets)
  | .ok wallet =>
    let cache := mapSet userWallets userId wallet
    match getBalanceW3 E rpc wallet.publicKey with
    | .error e => (importFailedMsg e, cache)
    | .ok balance => (importSuccessMsg E wallet balance, cache)

/-- `TelegramWalletHandler.handleImportPrivateKey`: same flow with
`importFromPrivateKey`. -/
def handleImportPrivateKey (E : Web3Ext) (rpc : Bytes → Except String Nat)
    (userWallets : SessionMap) (userId : Nat) (privateKey : String) :
    String × SessionMap :=
  match importFromPrivateKeyW3 E privateKey with
  | .error e => (importFailedMsg e, userWallets)
  | .ok wallet =>
    let cache := mapSet userWallets userId wallet
    match getBalanceW3 E rpc wallet.publicKey with
    | .error e => (importFailedMsg e, cache)
    | .ok balance => (importSuccessMsg E wallet balance, cache)

/-- C10: if the underlying import throws, both import handlers return the
error message and leave the session map exactly as it was (so every
user entry, including that of the caller, is untouched); if the import
succeeds the map becomes `mapSet` of the new wallet regardless of the
subsequent balance outcome — in particular a balance failure still
returns an error message with the new wallet already stored. -/
theorem C10_import_handlers_cache_atomicity (E : Web3Ext)
    (rpc : Bytes → Except String Nat) (st : SessionMap) (u : Nat)
    (x : String) :
    (∀ e, importFromMnemonic E x = .error e →
      handleImportMnemonic E rpc st u x = (importFailedMsg e, st))
    ∧ (∀ w, importFromMnemonic E x = .ok w →
      (handleImportMnemonic E rpc st u x).2 = mapSet st u w)
    ∧ (∀ w e, importFromMnemonic E x = .ok w →
      getBalanceW3 E rpc w.publicKey = .error e →
      handleImportMnemonic E rpc st u x = (importFailedMsg e, mapSet st u w))
    ∧ (∀ e, importFromPrivateKeyW3 E x = .error e →
      handleImportPrivateKey E rpc st u x = (importFailedMsg e, st))
    ∧ (∀ w, importFromPrivateKeyW3 E x = .ok w →
      (handleImportPrivateKey E rpc st u x).2 = mapSet st u w)
    ∧ (∀ w e, importFromPrivateKeyW3 E x = .ok w →
      getBalanceW3 E rpc w.publicKey = .error e →
      handleImportPrivateKey E rpc st u x = (importFailedMsg e, mapSet st u w)) := by
  refine ⟨?_, ?_, ?_, ?_, ?_, ?_⟩
  · intro e he
    simp only [handleImportMnemonic, he]
  · intro w hw
    simp only [handleImportMnemonic, hw]
    cases getBalanceW3 E rpc w.publicKey <;> rfl
  · intro w e hw hbal
    simp only [handleImportMnemonic, hw, hbal]
  · intro e he
    simp only [handleImportPrivateKey, he]
  · intro w hw
    simp only [handleImportPrivateKey, hw]
    cases getBalanceW3 E rpc w.publicKey <;> rfl
  · intro w e hw hbal
    simp only [handleImportPrivateKey, hw, hbal]

/-- Closed witness for C10: an invalid (empty) mnemonic leaves a
one-entry session map untouched and returns the error message. -/
theorem C10_witness :
    handleImportMnemonic toyWeb3 (fun _ => .ok 0)
        [(7, { publicKey := "pk", privateKey := "sk" })] 1 "" =
      (importFailedMsg ⟨"Failed to import from mnemonic", "Invalid mnemonic phrase"⟩,
        [(7, { publicKey := "pk", privateKey := "sk" })]) :=
  (C10_import_handlers_cache_atomicity toyWeb3 (fun _ => .ok 0)
    [(7, { publicKey := "pk", privateKey := "sk" })] 1 "").1
    ⟨"Failed to import from mnemonic", "Invalid mnemonic phrase"⟩ rfl

/-! ### Wallet record store (`src/wallet/model.ts` and its
unique-constrained variant)

The repository contains two versions of the typegoose `Wallet` model: a
plain one (`src/src/wallet/model.ts`: `@prop({ required: true })` only,
`createAndSave` saves without a `catch`) and a unique-constrained one
(`@prop({ required: true, unique: true })` on `userId`, `address` and
`encryptedPrivateKey`, with a `catch` mapping MongoDB duplicate-key
errors to `Error("Duplicate value for field: <field>")`) — the latter is
the behavior `model.test.ts` asserts.  Mongoose required-path validation
and the MongoDB unique-index semantics the schemas configure are
modelled explicitly; the collection is an explicit list of records. -/

/-- The data argument of `createAndSave`; `none` models a field omitted
at runtime (the typed signature requires the first three, but the tests
pass objects missing `userId` via a cast). -/
structure WalletData where
  userId : Option Nat
  address : Option String
  encryptedPrivateKey : Option String
  encryptedMnemonic : Option String
deriving DecidableEq

/-- A persisted wallet record. -/
structure WalletRecord where
  userId : Nat
  address : String
  encryptedPrivateKey : String
  encryptedMnemonic : Option String
deriving DecidableEq

/-- Errors raised by `wallet.save()`: a mongoose `ValidationError`
(message naming the missing path) or a `MongoServerError` (code 11000
with the `keyPattern` of the violated index for duplicates). -/
inductive MongoErr where
  | validationError (message : String)
  | serverError (code : Nat) (keyPattern : List String)
deriving DecidableEq

/-- Errors surfaced by `createAndSave`: the plain `Error` thrown by its
`catch`, a rethrown mongoose `ValidationError`, or a rethrown
`MongoServerError`. -/
inductive SaveErr where
  | errMsg (message : String)
  | validation (message : String)
  | mongo (code : Nat) (keyPattern : List String)
deriving DecidableEq

/-- `wallet.save()` under the unique-constrained schema: mongoose
validates the required paths in schema order (reporting the first
missing one), then the unique indexes on `userId`, `address` and
`encryptedPrivateKey` (in schema order) reject duplicates with a
`MongoServerError` of code 11000 naming the index. -/
def mongoSave (db : List WalletRecord) (data : WalletData) :
    Except MongoErr WalletRecord :=
  match data.userId with
  | none => .error (.validationError
      "Wallet validation failed: userId: Path `userId` is required.")
  | some u =>
    match data.address with
    | none => .error (.validationError
        "Wallet validation failed: address: Path `address` is required.")
    | some a =>
      match data.encryptedPrivateKey with
      | none => .error (.validationError
          "Wallet validation failed: encryptedPrivateKey: Path `encryptedPrivateKey` is required.")
      | some k =>
        if db.any (fun r => r.userId = u) then
          .error (.serverError 11000 ["userId"])
        else if db.any (fun r => r.address = a) then
          .error (.serverError 11000 ["address"])
        else if db.any (fun r => r.encryptedPrivateKey = k) then
          .error (.serverError 11000 ["encryptedPrivateKey"])
        else .ok ⟨u, a, k, data.encryptedMnemonic⟩

/-- `Wallet.createAndSave` (unique-constrained variant, part_005): saves,
and in the `catch` maps a `MongoServerError` of code 11000 to
`Error("Duplicate value for field: " + Object.keys(keyPattern)[0])`,
rethrowing anything else. -/
def createAndSave (db : List WalletRecord) (data : WalletData) :
    Except SaveErr (WalletRecord × List WalletRecord) :=
  match mongoSave db data with
  | .ok wallet => .ok (wallet, db ++ [wallet])
  | .error (.serverError code keyPattern) =>
    if code = 11000 then
      .error (.errMsg ("Duplicate value for field: " ++ keyPattern.headD "undefined"))
    else .error (.mongo code keyPattern)
  | .error (.validationError msg) => .error (.validation msg)

/-- `wallet.save()` under the plain schema of `src/wallet/model.ts`
(`required: true` only, no `unique` flags): required-path validation,
then an unconditional insert — no unique index exists to reject
duplicates. -/
def mongoSavePlain (_db : List WalletRecord) (data : WalletData) :
    Except MongoErr WalletRecord :=
  match data.userId with
  | none => .error (.validationError
      "Wallet validation failed: userId: Path `userId` is required.")
  | some u =>
    match data.address with
    | none => .error (.validationError
        "Wallet validation failed: address: Path `address` is required.")
    | some a =>
      match data.encryptedPrivateKey with
      | none => .error (.validationError
          "Wallet validation failed: encryptedPrivateKey: Path `encryptedPrivateKey` is required.")
      | some k => .ok ⟨u, a, k, data.encryptedMnemonic⟩

/-- `Wallet.createAndSave` of the plain `src/wallet/model.ts`: saves with
no `catch`, so every error propagates as-is. -/
def createAndSavePlain (db : List WalletRecord) (data : WalletData) :
    Except SaveErr (WalletRecord × List WalletRecord) :=
  match mongoSavePlain db data with
  | .ok wallet => .ok (wallet, db ++ [wallet])
  | .error (.serverError code keyPattern) => .error (.mongo code keyPattern)
  | .error (.validationError msg) => .error (.validation msg)

/-- The unique-constrained `createAndSave` does satisfy the record-store
contract: a duplicate `userId`, `address` or `encryptedPrivateKey`
surfaces as the duplicate-field error naming that field, a complete
non-colliding record is stored, and an omitted `userId` surfaces as the
mongoose validation error naming `userId`. -/
theorem createAndSave_unique_enforced (db : List WalletRecord) (u : Nat)
    (a k : String) (m : Option String) :
    (db.any (fun r => r.userId = u) = true →
      createAndSave db ⟨some u, some a, some k, m⟩ =
        .error (.errMsg "Duplicate value for field: userId"))
    ∧ (db.any (fun r => r.userId = u) = false →
       db.any (fun r => r.address = a) = true →
      createAndSave db ⟨some u, some a, some k, m⟩ =
        .error (.errMsg "Duplicate value for field: address"))
    ∧ (db.any (fun r => r.userId = u) = false →
       db.any (fun r => r.address = a) = false →
       db.any (fun r => r.encryptedPrivateKey = k) = true →
      createAndSave db ⟨some u, some a, some k, m⟩ =
        .error (.errMsg "Duplicate value for field: encryptedPrivateKey"))
    ∧ (db.any (fun r => r.userId = u) = false →
       db.any (fun r => r.address = a) = false →
       db.any (fun r => r.encryptedPrivateKey = k) = false →
      createAndSave db ⟨some u, some a, some k, m⟩ =
        .ok (⟨u, a, k, m⟩, db ++ [⟨u, a, k, m⟩]))
    ∧ (createAndSave db ⟨none, some a, some k, m⟩ =
        .error (.validation
          "Wallet validation failed: userId: Path `userId` is required.")) := by
  refine ⟨?_, ?_, ?_, ?_, rfl⟩
  · intro h1
    simp [createAndSave, mongoSave, h1]
  · intro h1 h2
    simp [createAndSave, mongoSave, h1, h2]
  · intro h1 h2 h3
    simp [createAndSave, mongoSave, h1, h2, h3]
  · intro h1 h2 h3
    simp [createAndSave, mongoSave, h1, h2, h3]

/-- The first record saved by `model.test.ts` (`walletData1`). -/
def testRecord1 : WalletRecord :=
  ⟨101, "0xAddressOne", "privateKeyOne", some "word1 word2 word3"⟩

/-- `walletData2` with the address of `walletData1` — the duplicate the tests
expect to be rejected with `Duplicate value for field: address`. -/
def dupAddressData : WalletData :=
  ⟨some 102, some "0xAddressOne", some "privateKeyTwo", none⟩

/-- The invalid test data with `userId` omitted. -/
def missingUserIdData : WalletData :=
  ⟨none, some "0xInvalidAddress", some "someKey", none⟩

/-- C7: at the inputs used by the tests, the two model variants diverge — the
unique-constrained variant rejects a duplicate address with the
duplicate-field error naming `address` and rejects missing `userId` with
the validation error naming `userId` (as the claim and `model.test.ts`
demand), while the plain `src/wallet/model.ts` variant, lacking `unique`
flags and the `catch`, accepts the duplicate-address record. -/
theorem C7_record_store_divergence :
    createAndSave [testRecord1] dupAddressData =
      .error (.errMsg "Duplicate value for field: address")
    ∧ createAndSave [testRecord1] missingUserIdData =
      .error (.validation
        "Wallet validation failed: userId: Path `userId` is required.")
    ∧ createAndSavePlain [testRecord1] dupAddressData =
      .ok (⟨102, "0xAddressOne", "privateKeyTwo", none⟩,
        [testRecord1, ⟨102, "0xAddressOne", "privateKeyTwo", none⟩])
    ∧ createAndSavePlain [testRecord1] missingUserIdData =
      .error (.validation
        "Wallet validation failed: userId: Path `userId` is required.") :=
  ⟨rfl, rfl, rfl, rfl⟩

end Soursop
